import Mathlib

/-!
Verification of the conversational state machine and AI-orchestration layer of
the `framer` backend, as a shallow embedding in Lean 4.

The embedding follows the Python sources:
  * `src/backend/app/agents/config.py`       (parse_json_response, call_ai_with_retry)
  * `src/backend/app/agents/conversation.py` (ConversationAgent.process_turn, _call_ai)
  * `src/backend/app/agents/evaluator.py`    (EvaluationResult, EvaluatorAgent)
  * `src/backend/app/agents/generator.py`    (GeneratorAgent._call_ai)
  * `src/backend/app/agents/refiner.py`      (RefinerAgent._call_ai)
  * `src/backend/app/models/conversation.py` (ConversationState, ConversationStatus)
  * `src/backend/app/services/conversation_service.py` (add_message, update_state, update_status)
  * `src/backend/app/api/conversations.py`   (send_message endpoint)

Python exceptions are modelled as values of `PyError` carrying the exception
message and the exception class name (the code classifies errors by substring
matching on both).  Python floats that the code manipulates (coverage scores,
retry delays) are modelled as rationals: every numeral the claims exercise is
exactly representable.  Upstream AI calls are modelled as explicit outcome
parameters (oracles), since the network is outside the program.
-/

namespace Framer

/-- Model of a raised Python exception: the `str(e)` message together with
`type(e).__name__`, both of which `call_ai_with_retry` inspects. -/
structure PyError where
  msg : String
  cls : String
deriving DecidableEq, Repr

/-- Whitespace for Python `str.strip()`: space, tab, newline, carriage return,
vertical tab, form feed. -/
def pyWs (c : Char) : Bool :=
  c = ' ' || c = '\t' || c = '\n' || c = '\r' || c = '\x0b' || c = '\x0c'

/-- Whitespace class of the regex `\s` used by the code-fence pattern in
`parse_json_response` (ASCII part; the inputs at issue are ASCII). -/
def regexWs (c : Char) : Bool :=
  c = ' ' || c = '\t' || c = '\n' || c = '\r' || c = '\x0b' || c = '\x0c'

/-- Whitespace skipped between JSON tokens by Python `json.loads`. -/
def jsonWs (c : Char) : Bool :=
  c = ' ' || c = '\t' || c = '\n' || c = '\r'

/-- Python `str.strip()` on a character list. -/
def pyStrip (cs : List Char) : List Char :=
  ((cs.dropWhile pyWs).reverse.dropWhile pyWs).reverse

/-- Python substring test `sub in hay`. -/
def strContainsSub (hay sub : List Char) : Bool :=
  hay.tails.any (fun t => sub.isPrefixOf t)

/-- Substring test on strings, modelling Python `in`. -/
def containsStr (hay sub : String) : Bool :=
  strContainsSub hay.data sub.data

/-- Remove `pre` from the front of `s`, or fail. -/
def dropStart? : List Char → List Char → Option (List Char)
  | [], s => some s
  | _ :: _, [] => none
  | p :: ps, c :: cs => if p = c then dropStart? ps cs else none

/-- The character `{` (kept out of literals for hygiene). -/
def lbrace : Char := Char.ofNat 123

/-- The character `}` (kept out of literals for hygiene). -/
def rbrace : Char := Char.ofNat 125

/-- JSON values as returned by Python `json.loads`.  Numbers are kept exact as
`mantissa * 10 ^ exp10` (Python distinguishes int/float; the distinction is
irrelevant to the verified claims). -/
inductive Json where
  | null
  | bool (flag : Bool)
  | num (mantissa : Int) (exp10 : Int)
  | str (text : String)
  | arr (items : List Json)
  | obj (fields : List (String × Json))

/-- Errors raised by the JSON parser carry the class name `JSONDecodeError`,
matching `json.JSONDecodeError` (a `ValueError` subclass). -/
def jerr (m : String) : PyError := ⟨m, "JSONDecodeError"⟩

/-- Hexadecimal digit value, for `\u` escapes. -/
def hexVal (c : Char) : Option Nat :=
  if c.isDigit then some (c.toNat - 48)
  else if 'a' ≤ c && c ≤ 'f' then some (c.toNat - 87)
  else if 'A' ≤ c && c ≤ 'F' then some (c.toNat - 55)
  else none

/-- Parse the body of a JSON string (the opening quote already consumed).
In strict mode raw control characters (codepoint < 0x20) are rejected, as by
`json.loads`; with `strict=False` they are accepted literally. -/
def parseJStringAux (strict : Bool) (acc : List Char) :
    Nat → List Char → Except PyError (String × List Char)
  | 0, _ => .error (jerr "Unterminated string")
  | _ + 1, [] => .error (jerr "Unterminated string")
  | fuel + 1, c :: rest =>
    if c = '"' then .ok (⟨acc.reverse⟩, rest)
    else if c = '\\' then
      match rest with
      | [] => .error (jerr "Unterminated string")
      | e :: rest2 =>
        if e = '"' then parseJStringAux strict ('"' :: acc) fuel rest2
        else if e = '\\' then parseJStringAux strict ('\\' :: acc) fuel rest2
        else if e = '/' then parseJStringAux strict ('/' :: acc) fuel rest2
        else if e = 'b' then parseJStringAux strict ('\x08' :: acc) fuel rest2
        else if e = 'f' then parseJStringAux strict ('\x0c' :: acc) fuel rest2
        else if e = 'n' then parseJStringAux strict ('\n' :: acc) fuel rest2
        else if e = 'r' then parseJStringAux strict ('\r' :: acc) fuel rest2
        else if e = 't' then parseJStringAux strict ('\t' :: acc) fuel rest2
        else if e = 'u' then
          match rest2 with
          | h1 :: h2 :: h3 :: h4 :: rest3 =>
            match hexVal h1, hexVal h2, hexVal h3, hexVal h4 with
            | some v1, some v2, some v3, some v4 =>
              let n := ((v1 * 16 + v2) * 16 + v3) * 16 + v4
              parseJStringAux strict (Char.ofNat n :: acc) fuel rest3
            | _, _, _, _ => .error (jerr "Invalid \\uXXXX escape")
          | _ => .error (jerr "Invalid \\uXXXX escape")
        else .error (jerr "Invalid \\escape")
    else if strict && decide (c.toNat < 32) then
      .error (jerr "Invalid control character")
    else parseJStringAux strict (c :: acc) fuel rest

/-- Parse a JSON string given input starting right after the opening quote. -/
def parseJString (strict : Bool) (cs : List Char) : Except PyError (String × List Char) :=
  parseJStringAux strict [] (cs.length + 1) cs

/-- Digits to a natural number. -/
def digitsToNat (ds : List Char) : Nat :=
  ds.foldl (fun n c => n * 10 + (c.toNat - 48)) 0

/-- Split a maximal run of decimal digits off the front of the input. -/
def splitDigits (cs : List Char) : List Char × List Char :=
  (cs.takeWhile Char.isDigit, cs.dropWhile Char.isDigit)

/-- Match the integer part `0 | [1-9][0-9]*` of the number grammar used by the
Python scanner (a leading zero is not followed by further digits). -/
def splitIntPart : List Char → Option (List Char × List Char)
  | [] => none
  | c :: r =>
    if c = '0' then some ([c], r)
    else if c.isDigit then some (splitDigits (c :: r))
    else none

/-- Match an optional fraction `\.[0-9]+`; left unconsumed when absent or
malformed, as by the scanner regex. -/
def splitFrac (cs : List Char) : List Char × List Char :=
  match cs with
  | '.' :: r =>
    let d := splitDigits r
    if d.1.isEmpty then ([], cs) else d
  | _ => ([], cs)

/-- Match an optional exponent `[eE][+-]?[0-9]+`, yielding its signed value;
left unconsumed (exponent 0) when absent or malformed. -/
def splitExp (cs : List Char) : Int × List Char :=
  match cs with
  | c :: r =>
    if c = 'e' || c = 'E' then
      let signed : Bool × List Char :=
        match r with
        | '-' :: r2 => (true, r2)
        | '+' :: r2 => (false, r2)
        | _ => (false, r)
      let d := splitDigits signed.2
      if d.1.isEmpty then (0, cs)
      else
        let v := Int.ofNat (digitsToNat d.1)
        (if signed.1 then -v else v, d.2)
    else (0, cs)
  | [] => (0, cs)

/-- Parse a JSON number at the head of the input, following the Python
scanner regex `-?(0|[1-9][0-9]*)(\.[0-9]+)?([eE][+-]?[0-9]+)?`. -/
def parseNumber (cs : List Char) : Except PyError (Json × List Char) :=
  let neg : Bool := cs.head? == some '-'
  let body := if neg then cs.drop 1 else cs
  match splitIntPart body with
  | none => .error (jerr "Expecting value")
  | some ip =>
    let fr := splitFrac ip.2
    let ex := splitExp fr.2
    let magnitude := digitsToNat (ip.1 ++ fr.1)
    let mantissa : Int := if neg then -(Int.ofNat magnitude) else Int.ofNat magnitude
    .ok (Json.num mantissa (ex.1 - Int.ofNat fr.1.length), ex.2)

/-- Stack frame of the iterative JSON value parser: a partially built array,
or a partially built object waiting for the value of `key`. -/
inductive PFrame where
  | arrF (acc : List Json)
  | objF (acc : List (String × Json)) (key : String)

/-- Read an object key and its following colon; returns the key and the input
positioned at the start of the member value. -/
def parseKeyColon (strict : Bool) (cs : List Char) : Except PyError (String × List Char) :=
  match cs with
  | c :: rest =>
    if c = '"' then
      match parseJString strict rest with
      | .error e => .error e
      | .ok (k, r) =>
        match r.dropWhile jsonWs with
        | ':' :: r2 => .ok (k, r2)
        | _ => .error (jerr "Expecting colon delimiter")
    else .error (jerr "Expecting property name enclosed in double quotes")
  | [] => .error (jerr "Expecting property name enclosed in double quotes")

/-- One-pass JSON value parser with an explicit container stack.  `none` mode
expects a value at the head of the input; `some v` mode folds the finished
value `v` into the enclosing container.  Fuel is structural so the kernel can
evaluate the parser on concrete input; every recursive call consumes input, so
`length + 2` fuel always suffices. -/
def parseLoop (strict : Bool) :
    Nat → Option Json → List PFrame → List Char → Except PyError (Json × List Char)
  | 0, _, _, _ => .error (jerr "Expecting value")
  | fuel + 1, none, stack, cs =>
    match cs.dropWhile jsonWs with
    | [] => .error (jerr "Expecting value")
    | c :: rest =>
      if c = lbrace then
        match rest.dropWhile jsonWs with
        | [] => .error (jerr "Expecting property name enclosed in double quotes")
        | c2 :: r2 =>
          if c2 = rbrace then parseLoop strict fuel (some (.obj [])) stack r2
          else
            match parseKeyColon strict (c2 :: r2) with
            | .error e => .error e
            | .ok (k, r3) => parseLoop strict fuel none (.objF [] k :: stack) r3
      else if c = '[' then
        match rest.dropWhile jsonWs with
        | ']' :: r2 => parseLoop strict fuel (some (.arr [])) stack r2
        | r2 => parseLoop strict fuel none (.arrF [] :: stack) r2
      else if c = '"' then
        match parseJString strict rest with
        | .error e => .error e
        | .ok (s, r) => parseLoop strict fuel (some (.str s)) stack r
      else if c = 't' then
        match dropStart? "rue".data rest with
        | some r => parseLoop strict fuel (some (.bool true)) stack r
        | none => .error (jerr "Expecting value")
      else if c = 'f' then
        match dropStart? "alse".data rest with
        | some r => parseLoop strict fuel (some (.bool false)) stack r
        | none => .error (jerr "Expecting value")
      else if c = 'n' then
        match dropStart? "ull".data rest with
        | some r => parseLoop strict fuel (some .null) stack r
        | none => .error (jerr "Expecting value")
      else if c = '-' || c.isDigit then
        match parseNumber (c :: rest) with
        | .error e => .error e
        | .ok (j, r) => parseLoop strict fuel (some j) stack r
      else .error (jerr "Expecting value")
  | _ + 1, some v, [], cs => .ok (v, cs)
  | fuel + 1, some v, frame :: stack, cs =>
    match frame with
    | .arrF acc =>
      match cs.dropWhile jsonWs with
      | ',' :: r => parseLoop strict fuel none (.arrF (v :: acc) :: stack) r
      | ']' :: r => parseLoop strict fuel (some (.arr (v :: acc).reverse)) stack r
      | _ => .error (jerr "Expecting comma delimiter")
    | .objF acc k =>
      match cs.dropWhile jsonWs with
      | ',' :: r =>
        match parseKeyColon strict (r.dropWhile jsonWs) with
        | .error e => .error e
        | .ok (k2, r2) => parseLoop strict fuel none (.objF ((k, v) :: acc) k2 :: stack) r2
      | c :: r =>
        if c = rbrace then parseLoop strict fuel (some (.obj ((k, v) :: acc).reverse)) stack r
        else .error (jerr "Expecting comma delimiter")
      | [] => .error (jerr "Expecting comma delimiter")

/-- Model of Python `json.loads(text)` (`strict := true`) and
`json.loads(text, strict=False)` (`strict := false`). -/
def jsonLoads (strict : Bool) (cs : List Char) : Except PyError Json :=
  match parseLoop strict (cs.length + 2) none [] cs with
  | .error e => .error e
  | .ok (v, rest) =>
    if (rest.dropWhile jsonWs).isEmpty then .ok v else .error (jerr "Extra data")

/-- Index of the last `\n` in `cs`, if any. -/
def lastNewlineIdx (cs : List Char) : Option Nat :=
  match cs.reverse.findIdx? (fun c => c = '\n') with
  | some p => some (cs.length - 1 - p)
  | none => none

/-- Model of the fence-stripping regex match
`re.match(r'^` ++ fence ++ `(?:json)?\s*\n(.*)\n\s*` ++ fence ++ `$', stripped, re.DOTALL)`
from `parse_json_response`, returning `group(1)` on a match.  Greediness of
`(.*)` means the closing `\n` chosen is the last newline that is followed only
by whitespace before the terminal triple backtick; greediness of the leading
`\s*` means the opening `\n` chosen is the last newline of the leading
whitespace run. -/
def stripFenceGroup (t : List Char) : Option (List Char) :=
  match dropStart? "```".data t with
  | none => none
  | some r0 =>
    let r1 := (dropStart? "json".data r0).getD r0
    let w := r1.takeWhile regexWs
    match lastNewlineIdx w with
    | none => none
    | some k =>
      let body := r1.drop (k + 1)
      match dropStart? "```".data body.reverse with
      | none => none
      | some rmid =>
        let w2 := rmid.takeWhile regexWs
        if w2.contains '\n' then
          match rmid.findIdx? (fun c => c = '\n') with
          | some p => some ((rmid.drop (p + 1)).reverse)
          | none => none
        else none

/-- Index of the last `}` in `cs`, if any (Python `str.rfind`). -/
def lastBraceIdx (cs : List Char) : Option Nat :=
  match cs.reverse.findIdx? (fun c => c = rbrace) with
  | some p => some (cs.length - 1 - p)
  | none => none

/-- Model of `parse_json_response` from `src/backend/app/agents/config.py`:
reject empty input, strip an optional markdown code fence, slice between the
first `{` and the last `}` when the text does not start with `{`, then parse
strictly and fall back to a lenient parse. -/
def parse_json_response (text : String) : Except PyError Json :=
  let cs := text.data
  if (pyStrip cs).isEmpty then .error ⟨"Empty AI response", "ValueError"⟩ else
  let stripped := pyStrip cs
  let stripped :=
    match stripFenceGroup stripped with
    | some g => if (pyStrip g).isEmpty then stripped else pyStrip g
    | none => stripped
  let stripped :=
    if stripped.head? = some lbrace then stripped
    else
      match stripped.findIdx? (fun c => c = lbrace) with
      | none => stripped
      | some start =>
        match lastBraceIdx stripped with
        | some stop => if start < stop then (stripped.take (stop + 1)).drop start else stripped
        | none => stripped
  if stripped.isEmpty then .error ⟨"No JSON content found in AI response", "ValueError"⟩ else
  match jsonLoads true stripped with
  | .ok v => .ok v
  | .error _ => jsonLoads false stripped

/-- Transient-failure classification from `call_ai_with_retry` in
`src/backend/app/agents/config.py`: substring markers in the message, or a
JSON-decode-error class name. -/
def is_retryable (e : PyError) : Bool :=
  containsStr e.msg "Empty" || containsStr e.msg "No JSON" ||
    containsStr e.msg "Expecting value" || containsStr e.cls "JSONDecodeError"

/-- Observable outcome of `call_ai_with_retry`: the returned value or the
re-raised error, how many times the wrapped operation was invoked, and the
sequence of backoff sleeps (in seconds) performed between attempts. -/
structure RetryOutcome (α : Type) where
  result : Except PyError α
  calls : Nat
  sleeps : List ℚ
deriving Repr

/-- Loop body of `call_ai_with_retry`.  `fn attempt` is the outcome of the
`attempt`-th invocation of the wrapped zero-argument operation (attempts are
numbered from 0, as by `for attempt in range(max_retries + 1)`).  An error is
re-raised immediately unless it is retryable and further attempts remain;
otherwise the loop sleeps `retry_delay * 2 ^ attempt` and retries. -/
def retryGo (fn : Nat → Except PyError α) (maxRetries : Nat) (retryDelay : ℚ) :
    Nat → Nat → RetryOutcome α
  | _, 0 => ⟨.error ⟨"unreachable", "RuntimeError"⟩, 0, []⟩
  | attempt, fuel + 1 =>
    match fn attempt with
    | .ok v => ⟨.ok v, 1, []⟩
    | .error e =>
      if is_retryable e && decide (attempt < maxRetries) then
        let rest := retryGo fn maxRetries retryDelay (attempt + 1) fuel
        ⟨rest.result, rest.calls + 1, retryDelay * 2 ^ attempt :: rest.sleeps⟩
      else ⟨.error e, 1, []⟩

/-- Model of `call_ai_with_retry(fn, max_retries, retry_delay)` from
`src/backend/app/agents/config.py`.  The Python loop runs attempts
`0 .. max_retries`; the fuel `maxRetries + 1` is exactly the attempt budget
and is never exhausted. -/
def call_ai_with_retry (fn : Nat → Except PyError α) (maxRetries : Nat) (retryDelay : ℚ) :
    RetryOutcome α :=
  retryGo fn maxRetries retryDelay 0 (maxRetries + 1)

/-- Default `max_retries` of `call_ai_with_retry`. -/
def defaultMaxRetries : Nat := 4

/-- Default `retry_delay` (seconds) of `call_ai_with_retry`. -/
def defaultRetryDelay : ℚ := 1

/-- Model of `ConversationState` from `src/backend/app/models/conversation.py`.
Python dicts are association lists; coverage floats are rationals. -/
structure ConversationState where
  frame_type : Option String
  sections_covered : List (String × ℚ)
  extracted_content : List (String × String)
  gaps : List String
  ready_to_synthesize : Bool
deriving DecidableEq, Repr

/-- Default-constructed `ConversationState()` (the pydantic field defaults). -/
def initialConversationState : ConversationState :=
  ⟨none,
   [("problem_statement", 0), ("root_cause", 0), ("user_perspective", 0),
    ("engineering_framing", 0), ("validation_thinking", 0)],
   [], [], false⟩

/-- One `\x7brole, content\x7d` chat turn as passed to the Gateway. -/
structure ChatMsg where
  role : String
  content : String
deriving DecidableEq, Repr

/-- Result of `ConversationAgent.process_turn` (`ConversationTurn` in
`src/backend/app/agents/conversation.py`). -/
structure ConversationTurn where
  response : String
  updated_state : ConversationState
  relevant_knowledge : List Json

/-- Lookup in a parsed JSON object, modelling Python `dict.get(key)` (keys of
a dict produced by `json.loads` are unique, so first-match lookup agrees). -/
def dget (kvs : List (String × Json)) (key : String) : Option Json :=
  (kvs.find? (fun kv => kv.1 = key)).map (fun kv => kv.2)

/-- AttributeError raised when the code calls `.get` on a non-dict value. -/
def attrErr : PyError := ⟨"object has no attribute get", "AttributeError"⟩

/-- Validation failure from pydantic model construction. -/
def pydErr (ctx : String) : PyError := ⟨"validation error for " ++ ctx, "ValidationError"⟩

/-- Pydantic decode of an `Optional[str]` field. -/
def decodeOptStr (ctx : String) : Json → Except PyError (Option String)
  | .null => .ok none
  | .str s => .ok (some s)
  | _ => .error (pydErr ctx)

/-- Pydantic decode of a `str` field. -/
def decodeStr (ctx : String) : Json → Except PyError String
  | .str s => .ok s
  | _ => .error (pydErr ctx)

/-- Pydantic decode of a `bool` field. -/
def decodeBool (ctx : String) : Json → Except PyError Bool
  | .bool b => .ok b
  | _ => .error (pydErr ctx)

/-- Numeric JSON value as an exact rational (`mantissa * 10 ^ exp10`). -/
def ratOfNum (m e : Int) : ℚ :=
  if 0 ≤ e then ((m * 10 ^ e.toNat : Int) : ℚ) else mkRat m (10 ^ (-e).toNat)

/-- Pydantic decode of a `dict[str, float]` field. -/
def decodeFloatMap (ctx : String) : Json → Except PyError (List (String × ℚ))
  | .obj kvs =>
    kvs.mapM (fun kv =>
      match kv.2 with
      | .num m e => .ok (kv.1, ratOfNum m e)
      | _ => .error (pydErr ctx))
  | _ => .error (pydErr ctx)

/-- Pydantic decode of a `dict[str, str]` field. -/
def decodeStrMap (ctx : String) : Json → Except PyError (List (String × String))
  | .obj kvs =>
    kvs.mapM (fun kv =>
      match kv.2 with
      | .str s => .ok (kv.1, s)
      | _ => .error (pydErr ctx))
  | _ => .error (pydErr ctx)

/-- Pydantic decode of a `list[str]` field. -/
def decodeStrList (ctx : String) : Json → Except PyError (List String)
  | .arr items =>
    items.mapM (fun it =>
      match it with
      | .str s => .ok s
      | _ => .error (pydErr ctx))
  | _ => .error (pydErr ctx)

/-- Normalization of `relevant_knowledge` items (lines 343-350 of
`conversation.py`): dict items are kept, string items become
`\x7bcontent: string\x7d`, anything else is silently skipped.  Iterating a
Python string yields its characters and iterating a dict yields its keys;
non-iterable values raise `TypeError`. -/
def normalizeKnowledge : Json → Except PyError (List Json)
  | .arr items =>
    .ok (items.foldr
      (fun item acc =>
        match item with
        | .obj kvs => Json.obj kvs :: acc
        | .str s => Json.obj [("content", Json.str s)] :: acc
        | _ => acc) [])
  | .str s => .ok (s.data.map (fun c => Json.obj [("content", Json.str c.toString)]))
  | .obj kvs => .ok (kvs.map (fun kv => Json.obj [("content", Json.str kv.1)]))
  | _ => .error ⟨"object is not iterable", "TypeError"⟩

/-- Constructor argument `frame_type=updated_state_data.get("frame_type",
state.frame_type)` followed by pydantic validation. -/
def mergeFrameType (state : ConversationState) (usd : List (String × Json)) :
    Except PyError (Option String) :=
  match dget usd "frame_type" with
  | none => .ok state.frame_type
  | some v => decodeOptStr "ConversationState frame_type" v

/-- Constructor argument `sections_covered=updated_state_data.get(
"sections_covered", state.sections_covered)` followed by validation. -/
def mergeSections (state : ConversationState) (usd : List (String × Json)) :
    Except PyError (List (String × ℚ)) :=
  match dget usd "sections_covered" with
  | none => .ok state.sections_covered
  | some v => decodeFloatMap "ConversationState sections_covered" v

/-- Constructor argument `extracted_content=updated_state_data.get(
"extracted_content", state.extracted_content)` followed by validation. -/
def mergeExtracted (state : ConversationState) (usd : List (String × Json)) :
    Except PyError (List (String × String)) :=
  match dget usd "extracted_content" with
  | none => .ok state.extracted_content
  | some v => decodeStrMap "ConversationState extracted_content" v

/-- Constructor argument `gaps=updated_state_data.get("gaps", state.gaps)`
followed by validation. -/
def mergeGaps (state : ConversationState) (usd : List (String × Json)) :
    Except PyError (List String) :=
  match dget usd "gaps" with
  | none => .ok state.gaps
  | some v => decodeStrList "ConversationState gaps" v

/-- Constructor argument `ready_to_synthesize=updated_state_data.get(
"ready_to_synthesize", state.ready_to_synthesize)` followed by validation. -/
def mergeReady (state : ConversationState) (usd : List (String × Json)) :
    Except PyError Bool :=
  match dget usd "ready_to_synthesize" with
  | none => .ok state.ready_to_synthesize
  | some v => decodeBool "ConversationState ready_to_synthesize" v

/-- The `ConversationState(...)` constructor call of `process_turn` (lines
335-341 of `conversation.py`): each field is taken from the parsed
`updated_state` dict when the key is present (and pydantic-validated), and
defaults to the corresponding field of the previous state when absent. -/
def mergeUpdatedState (state : ConversationState) (usd : List (String × Json)) :
    Except PyError ConversationState := do
  let ft ← mergeFrameType state usd
  let sc ← mergeSections state usd
  let ec ← mergeExtracted state usd
  let gaps ← mergeGaps state usd
  let ready ← mergeReady state usd
  .ok ⟨ft, sc, ec, gaps, ready⟩

/-- Extraction of the reply text: `result.get("response", "I need a moment to
think about that.")`, followed by pydantic validation of the `str` field. -/
def responseOf (res : List (String × Json)) : Except PyError String :=
  match dget res "response" with
  | none => .ok "I need a moment to think about that."
  | some v => decodeStr "ConversationTurn response" v

/-- Success branch of `ConversationAgent.process_turn` (lines 334-356 of
`conversation.py`): the new `ConversationState` is built field-by-field from
the parsed `result` via `mergeUpdatedState`, then knowledge refs are
normalized and the reply text extracted (with its hard-coded default). -/
def processTurnSuccess (state : ConversationState) (result : Json) :
    Except PyError ConversationTurn := do
  match result with
  | .obj res =>
    match (dget res "updated_state").getD (.obj []) with
    | .obj usd =>
      let us ← mergeUpdatedState state usd
      let knowledge ← normalizeKnowledge ((dget res "relevant_knowledge").getD (.arr []))
      let response ← responseOf res
      .ok ⟨response, us, knowledge⟩
    | _ => .error attrErr
  | _ => .error attrErr

/-- The module-level `SYSTEM_PROMPT` of `conversation.py` (briefly: the
framing-coach persona, the JSON reply format, and the readiness rule as an
instruction to the model). -/
def SYSTEM_PROMPT : String := "You are a Framing Coach for an engineering team. Your role is to help engineers clarify their thinking before they start implementation work.\n\nYou guide a natural conversation to elicit information for these dimensions:\n1. **Problem Statement** — A clear, solution-free definition of the problem (max 30 words)\n1b. **Root Cause** (bug frames only) — Technical root cause analysis: what went wrong and why\n2. **User Perspective** — Who is affected, their journey, pain points, and context\n3. **Engineering Framing** — Key principles, invariants, trade-offs, and explicit non-goals\n4. **Validation Thinking** — Structured test cases (scenario, steps, expected result, priority), success criteria checklist, rollback plan\n\nIMPORTANT RULES:\n- Ask ONE focused question at a time\n- Be conversational, not interrogative\n- Acknowledge what the user says before asking the next question\n- Start by understanding the broad problem, then drill into specifics\n- If the user\x27s description naturally covers multiple sections, acknowledge that and move on\n- Don\x27t ask about things already clearly stated\n- When you detect the frame type (bug/feature/exploration), note it internally\n- For bug frames, always explore root cause after the problem statement\n\nYou must respond with JSON in this exact format:\n\x7b\n  \"response\": \"Your conversational message to the user\",\n  \"updated_state\": \x7b\n    \"frame_type\": \"bug\" | \"feature\" | \"exploration\" | null,\n    \"sections_covered\": \x7b\n      \"problem_statement\": 0.0-1.0,\n      \"root_cause\": 0.0-1.0,\n      \"user_perspective\": 0.0-1.0,\n      \"engineering_framing\": 0.0-1.0,\n      \"validation_thinking\": 0.0-1.0\n    \x7d,\n    \"extracted_content\": \x7b\n      \"problem_statement\": \"extracted content so far...\",\n      \"root_cause\": \"extracted content so far (bug frames only, empty string for others)...\",\n      \"user_perspective\": \"extracted content so far...\",\n      \"engineering_framing\": \"extracted content so far...\",\n      \"validation_thinking\": \"extracted content so far...\"\n    \x7d,\n    \"gaps\": [\"list of information still needed\"],\n    \"ready_to_synthesize\": true/false\n  \x7d,\n  \"relevant_knowledge\": []\n\x7d\n\nSet ready_to_synthesize to true when all sections have >= 0.6 coverage (root_cause only required for bug frames).\n"

/-- Model of `ConversationAgent._language_instruction`: empty for a missing,
empty or English language code; otherwise a directive naming the target
language (with a lookup table for zh/ja/ko). -/
def languageInstruction (language : Option String) : String :=
  match language with
  | none => ""
  | some l =>
    if l = "" || l = "en" then ""
    else
      let langName := match l with
        | "zh" => "Chinese (中文)"
        | "ja" => "Japanese"
        | "ko" => "Korean"
        | other => other
      "IMPORTANT: You MUST respond entirely in " ++ langName ++ ". " ++
        "All content, analysis, questions, and frame sections must be in " ++ langName ++
        ", regardless of what language the user writes in.\n\n"

/-- JSON string escaping for the serializer modelling `json.dumps`. -/
def jsonEscapeChar (c : Char) : String :=
  if c = '"' then "\\\""
  else if c = '\\' then "\\\\"
  else if c = '\n' then "\\n"
  else if c = '\r' then "\\r"
  else if c = '\t' then "\\t"
  else if decide (c.toNat < 32) then "\\u001f"
  else c.toString

/-- Quote a string as a JSON string literal. -/
def jsonQuote (s : String) : String :=
  "\"" ++ String.join (s.data.map jsonEscapeChar) ++ "\""

/-- Render a coverage rational the way Python `json.dumps` prints the float
(exact decimal; every value the code produces is a finite decimal). -/
def ratToPyFloat (q : ℚ) : String :=
  if q.den = 1 then toString q.num ++ ".0"
  else
    match (List.range 28).find? (fun k => (10 : Nat) ^ k % q.den = 0) with
    | some k =>
      let scaled : Int := q.num * ((10 : Nat) ^ k / q.den : Nat)
      let sign := if scaled < 0 then "-" else ""
      let digits := toString scaled.natAbs
      let digits := if digits.length ≤ k then
          String.mk (List.replicate (k + 1 - digits.length) '0') ++ digits
        else digits
      sign ++ digits.take (digits.length - k) ++ "." ++ digits.drop (digits.length - k)
    | none => toString q.num ++ "/" ++ toString q.den

/-- Render one nested string-keyed mapping for `dumpsState`, at the two-space
indentation `json.dumps(..., indent=2)` uses for a dict value of the top-level
object. -/
def kvLines {α : Type} (render : α → String) (kvs : List (String × α)) : String :=
  if kvs.isEmpty then "\x7b\x7d"
  else
    "\x7b\n" ++
      String.intercalate ",\n"
        (kvs.map (fun kv => "    " ++ jsonQuote kv.1 ++ ": " ++ render kv.2)) ++
      "\n  \x7d"

/-- Serialization of `json.dumps(state.model_dump(), indent=2)` embedded into
the system prompt by `process_turn`. -/
def dumpsState (s : ConversationState) : String :=
  let gapsStr :=
    if s.gaps.isEmpty then "[]"
    else
      "[\n" ++ String.intercalate ",\n" (s.gaps.map (fun g => "    " ++ jsonQuote g)) ++ "\n  ]"
  "\x7b\n  \"frame_type\": " ++
    (match s.frame_type with
     | none => "null"
     | some t => jsonQuote t) ++
    ",\n  \"sections_covered\": " ++ kvLines ratToPyFloat s.sections_covered ++
    ",\n  \"extracted_content\": " ++ kvLines jsonQuote s.extracted_content ++
    ",\n  \"gaps\": " ++ gapsStr ++
    ",\n  \"ready_to_synthesize\": " ++ (if s.ready_to_synthesize then "true" else "false") ++
    "\n\x7d"

/-- Gateway call mode: structured (JSON-constrained) or free text. -/
inductive CallMode where
  | structured
  | freeText
deriving DecidableEq, Repr

/-- Record of one dispatched Gateway call: mode, system instruction, and the
full message history passed upstream. -/
structure GatewayCall where
  mode : CallMode
  system : String
  messages : List ChatMsg
deriving DecidableEq, Repr

/-- Construction of the system instruction and chat history by `process_turn`
(lines 299-308 of `conversation.py`): language directive, persona prompt,
optional knowledge context, the current state as JSON, then the prior
messages plus the new user utterance. -/
def buildTurnPrompt (messages : List ChatMsg) (state : ConversationState)
    (userMessage knowledgeContext : String) (language : Option String) :
    String × List ChatMsg :=
  let system := languageInstruction language ++ SYSTEM_PROMPT
  let system :=
    if knowledgeContext = "" then system
    else system ++ "\n\nRelevant team knowledge to consider:\n" ++ knowledgeContext
  let system := system ++ "\n\nCurrent state:\n" ++ dumpsState state
  (system, messages ++ [⟨"user", userMessage⟩])

/-- Model of `ConversationAgent.process_turn`.  The structured call
(`_call_ai`, retry supervisor included) and the free-text call
(`_call_ai_text`) are oracles mapping the system instruction and history to
an outcome.  Returns the turn outcome together with the trace of Gateway
calls dispatched.  A raised `ValueError` or `json.JSONDecodeError` from the
structured call (the parse-failure classes) triggers the free-text fallback
with the state kept unchanged; any other exception propagates. -/
def process_turn
    (structuredCall : String → List ChatMsg → Except PyError Json)
    (textCall : String → List ChatMsg → Except PyError String)
    (messages : List ChatMsg) (state : ConversationState)
    (userMessage : String) (knowledgeContext : String) (language : Option String) :
    Except PyError ConversationTurn × List GatewayCall :=
  let p := buildTurnPrompt messages state userMessage knowledgeContext language
  match structuredCall p.1 p.2 with
  | .ok result => (processTurnSuccess state result, [⟨.structured, p.1, p.2⟩])
  | .error e =>
    if e.cls = "ValueError" || e.cls = "JSONDecodeError" then
      match textCall p.1 p.2 with
      | .ok t => (.ok ⟨t, state, []⟩, [⟨.structured, p.1, p.2⟩, ⟨.freeText, p.1, p.2⟩])
      | .error e2 => (.error e2, [⟨.structured, p.1, p.2⟩, ⟨.freeText, p.1, p.2⟩])
    else (.error e, [⟨.structured, p.1, p.2⟩])

/-- Model of `AIConfig.is_openai_compatible` from `config.py`. -/
def is_openai_compatible (provider : String) : Bool :=
  provider = "openai" || provider = "minimax" || provider = "glm"

/-- ValueError raised on an unrecognized provider identifier. -/
def unsupportedProviderErr (provider : String) : PyError :=
  ⟨"Unsupported provider: " ++ provider, "ValueError"⟩

/-- Model of `ConversationAgent._call_ai` (conversation.py lines 169-180):
provider dispatch inside `_do_call`, wrapped in `call_ai_with_retry` at the
default retry policy.  `upstream i` is the outcome of the `i`-th provider
round-trip (request, response and JSON parse). -/
def conversationAgentCallAi (provider : String) (upstream : Nat → Except PyError Json) :
    RetryOutcome Json :=
  call_ai_with_retry
    (fun i =>
      if is_openai_compatible provider || provider = "anthropic" then upstream i
      else .error (unsupportedProviderErr provider))
    defaultMaxRetries defaultRetryDelay

/-- Model of `EvaluatorAgent._call_ai` (evaluator.py lines 61-79): identical
dispatch, wrapped in `call_ai_with_retry`. -/
def evaluatorAgentCallAi (provider : String) (upstream : Nat → Except PyError Json) :
    RetryOutcome Json :=
  call_ai_with_retry
    (fun i =>
      if is_openai_compatible provider || provider = "anthropic" then upstream i
      else .error (unsupportedProviderErr provider))
    defaultMaxRetries defaultRetryDelay

/-- Model of `GeneratorAgent._call_ai` (generator.py lines 68-83): a single
dispatch by provider with NO retry wrapper — the upstream operation is
invoked exactly once and any failure propagates directly. -/
def generatorAgentCallAi (provider : String) (upstream : Nat → Except PyError Json) :
    Except PyError Json :=
  if provider = "openai" then upstream 0
  else if provider = "anthropic" then upstream 0
  else .error (unsupportedProviderErr provider)

/-- Model of `RefinerAgent._call_ai` (refiner.py lines 66-81): same shape as
the generator — single dispatch, no retry wrapper. -/
def refinerAgentCallAi (provider : String) (upstream : Nat → Except PyError Json) :
    Except PyError Json :=
  if provider = "openai" then upstream 0
  else if provider = "anthropic" then upstream 0
  else .error (unsupportedProviderErr provider)

/-- Model of `EvaluationResult` from `src/backend/app/agents/evaluator.py`. -/
structure EvaluationResult where
  score : Int
  breakdown : List (String × Int)
  feedback : String
  issues : List String
deriving DecidableEq, Repr

/-- Pydantic construction of `EvaluationResult`: both the field constraint
`Field(ge=0, le=100)` and the `validate_score` validator reject a score
outside [0, 100]; nothing clamps. -/
def mkEvaluationResult (score : Int) (breakdown : List (String × Int))
    (feedback : String) (issues : List String) : Except PyError EvaluationResult :=
  if score < 0 || 100 < score then
    .error ⟨"Score must be between 0 and 100, got " ++ toString score, "ValidationError"⟩
  else .ok ⟨score, breakdown, feedback, issues⟩

/-- Pydantic decode of an `int` field from a JSON number (exact values only;
a fractional value fails validation). -/
def decodeInt (ctx : String) : Json → Except PyError Int
  | .num m e =>
    if 0 ≤ e then .ok (m * 10 ^ e.toNat)
    else
      let d : Int := 10 ^ (-e).toNat
      if m % d = 0 then .ok (m / d) else .error (pydErr ctx)
  | _ => .error (pydErr ctx)

/-- Pydantic decode of a `dict[str, int]` field. -/
def decodeIntMap (ctx : String) : Json → Except PyError (List (String × Int))
  | .obj kvs =>
    kvs.mapM (fun kv =>
      match decodeInt ctx kv.2 with
      | .ok n => .ok (kv.1, n)
      | .error e => .error e)
  | _ => .error (pydErr ctx)

/-- Extraction `result.get("score", 0)` with pydantic `int` validation. -/
def scoreOf (res : List (String × Json)) : Except PyError Int :=
  match dget res "score" with
  | none => .ok 0
  | some v => decodeInt "EvaluationResult score" v

/-- Extraction `result.get("breakdown", \x7b\x7d)` with validation. -/
def breakdownOf (res : List (String × Json)) : Except PyError (List (String × Int)) :=
  match dget res "breakdown" with
  | none => .ok []
  | some v => decodeIntMap "EvaluationResult breakdown" v

/-- Extraction `result.get("feedback", "")` with validation. -/
def feedbackOf (res : List (String × Json)) : Except PyError String :=
  match dget res "feedback" with
  | none => .ok ""
  | some v => decodeStr "EvaluationResult feedback" v

/-- Extraction `result.get("issues", [])` with validation. -/
def issuesOf (res : List (String × Json)) : Except PyError (List String) :=
  match dget res "issues" with
  | none => .ok []
  | some v => decodeStrList "EvaluationResult issues" v

/-- Model of `EvaluatorAgent.evaluate` (evaluator.py lines 126-148) given the
outcome of `_call_ai`: extract score/breakdown/feedback/issues with their
defaults for missing keys, then validate through `EvaluationResult`.  An
out-of-range score therefore raises; it is never clamped. -/
def evaluator_evaluate (callResult : Except PyError Json) :
    Except PyError EvaluationResult := do
  let result ← callResult
  match result with
  | .obj res => do
    let score ← scoreOf res
    let breakdown ← breakdownOf res
    let feedback ← feedbackOf res
    let issues ← issuesOf res
    mkEvaluationResult score breakdown feedback issues
  | _ => .error attrErr

/-- Lifecycle status of a conversation (`ConversationStatus`). -/
inductive ConversationStatus where
  | active
  | synthesized
  | abandoned
deriving DecidableEq, Repr

/-- A message as persisted by `ConversationService` in `messages.json`. -/
structure StoredMessage where
  id : String
  role : String
  content : String
deriving DecidableEq, Repr

/-- Persisted contents of one conversation directory: `meta.yaml` status and
updated-at timestamp, `messages.json`, and `state.json`.  Timestamps are
abstract instants (`datetime.now()` is passed in as `now`). -/
structure ConvStore where
  status : ConversationStatus
  updated_at : Nat
  messages : List StoredMessage
  state : ConversationState
deriving DecidableEq, Repr

/-- Python `f"\x7bn:03d\x7d"`. -/
def pad3 (n : Nat) : String :=
  let s := toString n
  if s.length < 3 then String.mk (List.replicate (3 - s.length) '0') ++ s else s

/-- Model of `ConversationService.add_message`: append a message with id
`msg-NNN` and refresh the meta updated-at timestamp. -/
def add_message (store : ConvStore) (now : Nat) (role content : String) :
    ConvStore × StoredMessage :=
  let msg : StoredMessage := ⟨"msg-" ++ pad3 (store.messages.length + 1), role, content⟩
  (⟨store.status, now, store.messages ++ [msg], store.state⟩, msg)

/-- Model of `ConversationService.update_state`: overwrite `state.json` and
refresh the meta updated-at timestamp. -/
def update_state (store : ConvStore) (now : Nat) (s : ConversationState) : ConvStore :=
  ⟨store.status, now, store.messages, s⟩

/-- Model of `ConversationService.update_status`: rewrite `meta.yaml` with the
new status and a fresh updated-at timestamp; messages and state untouched. -/
def update_status (store : ConvStore) (now : Nat) (st : ConversationStatus) : ConvStore :=
  ⟨st, now, store.messages, store.state⟩

/-- Persistence-relevant events of one `send_message` request, in program
order: status writes, the AI round-trip, message appends, state writes. -/
inductive PersistEvent where
  | updateStatusEv (st : ConversationStatus)
  | aiCallEv
  | addMessageEv (role content : String)
  | updateStateEv (s : ConversationState)
deriving DecidableEq, Repr

/-- An HTTPException raised by the endpoint. -/
structure HttpError where
  status : Nat
  detail : String
deriving DecidableEq, Repr

/-- Outcome of one `send_message` request in this source snapshot: a raised
`HTTPException`, or an exception that escapes the handler uncaught (the
boundary layer maps it to a 500).  No 200 response is reachable: the
successful-AI path raises `AttributeError` before building one (see
`send_message`). -/
inductive SendMessageOutcome where
  | httpError (e : HttpError)
  | uncaught (e : PyError)
deriving DecidableEq, Repr

/-- Observable result of one `send_message` request: the persisted store
afterwards, the request outcome, and the ordered event trace. -/
structure SendMessageResult where
  store : ConvStore
  outcome : SendMessageOutcome
  events : List PersistEvent

/-- Status gate of `send_message` (conversations.py lines 213-221): a
`synthesized` conversation is reactivated — the status write is persisted
immediately, before any AI work — and any status other than `active` or
`synthesized` is rejected with HTTP 400. -/
def send_message_gate (store : ConvStore) (now : Nat) :
    Except HttpError (ConvStore × List PersistEvent) :=
  if store.status = .synthesized then
    .ok (update_status store now .active, [.updateStatusEv .active])
  else if store.status = .active then .ok (store, [])
  else .error ⟨400, "Conversation is not active"⟩

/-- Model of the `send_message` endpoint (conversations.py lines 197-322).
`aiOutcome` is the outcome of the agent call (`process_turn` or
`process_review_turn`, retries and fallback included).  The knowledge search
is read-only with swallowed failures and does not touch the store.  The AI
call is made BEFORE any message/state write: on an AI error the request fails
with HTTP 502 and only the reactivation status write (if any) has been
persisted.  On a successful AI call, the first `add_message` call site (line
285) evaluates `turn.user_content_en` among its arguments; `ConversationTurn`
(conversation.py lines 149-153) defines no such field, so pydantic raises
`AttributeError` before `add_message` is invoked (and the call also passes
`sender_name`/`content_en`/`content_zh` keywords that
`ConversationService.add_message` does not accept).  The exception is outside
the `try` that ends at line 280, so in this snapshot the successful-AI path
performs no message or state write either: it escapes with the reactivation
status write (if any) as the only persisted change. -/
def send_message (store : ConvStore) (now : Nat) (content : String)
    (aiOutcome : Except PyError ConversationTurn) : SendMessageResult :=
  match send_message_gate store now with
  | .error e => ⟨store, .httpError e, []⟩
  | .ok (st1, evs) =>
    match aiOutcome with
    | .error e =>
      ⟨st1, .httpError ⟨502, "AI service error: " ++ e.msg⟩, evs ++ [.aiCallEv]⟩
    | .ok _ =>
      ⟨st1,
       .uncaught ⟨"ConversationTurn object has no attribute user_content_en",
                  "AttributeError"⟩,
       evs ++ [.aiCallEv]⟩

/-- The five frame sections tracked by the coverage map. -/
def frameSections : List String :=
  ["problem_statement", "root_cause", "user_perspective",
   "engineering_framing", "validation_thinking"]

/-- Sections applicable to a detected frame category, transcribed from the
claim: `root_cause` applies only when the category is `bug`. -/
def specApplicableSections (frame_type : Option String) : List String :=
  if frame_type = some "bug" then frameSections
  else frameSections.filter (fun s => s ≠ "root_cause")

/-- Coverage score recorded for a section (0 when absent). -/
def lookupCoverage (s : ConversationState) (sec : String) : ℚ :=
  match s.sections_covered.find? (fun kv => kv.1 = sec) with
  | some kv => kv.2
  | none => 0

/-- Readiness condition transcribed from the claim (and spec §3 invariant):
every applicable section has coverage at least 0.6. -/
def specReadyCoverage (s : ConversationState) : Bool :=
  (specApplicableSections s.frame_type).all
    (fun sec => decide (mkRat 6 10 ≤ lookupCoverage s sec))

/-- Events that persist message-list or state data (`add_message`,
`update_state`), as opposed to status writes and the AI round-trip. -/
def isWriteEvent : PersistEvent → Bool
  | .addMessageEv _ _ => true
  | .updateStateEv _ => true
  | _ => false

/-- Fixture: an operation failing with a plain connectivity error. -/
def c6FnConn : Nat → Except PyError Nat :=
  fun _ => .error ⟨"connection refused", "ConnectionError"⟩

/-- Fixture: an operation failing twice with a transient marker, then
succeeding. -/
def c6FnFlaky : Nat → Except PyError Nat :=
  fun i => if i < 2 then .error ⟨"Empty AI response", "ValueError"⟩ else .ok 7

/-- Fixture: an operation that always fails with a transient marker. -/
def c6FnAlways : Nat → Except PyError Nat :=
  fun _ => .error ⟨"No JSON content found in AI response", "ValueError"⟩

/-- Fixture: an upstream round-trip that fails once with a transient parse
failure, then succeeds. -/
def flakyUpstream : Nat → Except PyError Json :=
  fun i => if i = 0 then .error ⟨"Empty AI response", "ValueError"⟩ else .ok (.obj [])

/-- Fixture: the `updated_state` dict of a model response asserting readiness
while reporting zero coverage on `root_cause` of a `bug` frame. -/
def c4UsdFields : List (String × Json) :=
  [("frame_type", .str "bug"),
   ("sections_covered", .obj
     [("problem_statement", .num 1 0), ("root_cause", .num 0 0),
      ("user_perspective", .num 1 0), ("engineering_framing", .num 1 0),
      ("validation_thinking", .num 1 0)]),
   ("ready_to_synthesize", .bool true)]

/-- Fixture: the fields of a parsed model response asserting readiness while
reporting zero coverage on `root_cause` of a `bug` frame. -/
def c4ResFields : List (String × Json) :=
  [("response", .str "ok"),
   ("updated_state", .obj c4UsdFields),
   ("relevant_knowledge", .arr [])]

/-- Fixture: the parsed model response built from `c4ResFields`. -/
def c4Result : Json := .obj c4ResFields

/-- The turn produced from `c4Result` on the initial state. -/
def c4Turn : ConversationTurn :=
  ⟨"ok",
   ⟨some "bug",
    [("problem_statement", 1), ("root_cause", 0), ("user_perspective", 1),
     ("engineering_framing", 1), ("validation_thinking", 1)],
    [], [], true⟩,
   []⟩

/-- Fixture: a state with accumulated coverage and extracted content. -/
def exState : ConversationState :=
  ⟨some "feature",
   [("problem_statement", mkRat 8 10), ("root_cause", 0), ("user_perspective", mkRat 7 10),
    ("engineering_framing", mkRat 6 10), ("validation_thinking", mkRat 1 2)],
   [("problem_statement", "users cannot log in")],
   ["validation still open"], false⟩

/-- Fixture: a synthesized conversation with one stored message. -/
def exStoreSynth : ConvStore :=
  ⟨.synthesized, 0, [⟨"msg-001", "user", "u1"⟩], exState⟩

/-- Fixture: an active conversation. -/
def exStoreActive : ConvStore :=
  ⟨.active, 0, [⟨"msg-001", "user", "u1"⟩], exState⟩

/-- Fixture: a successful agent turn. -/
def exTurn : ConversationTurn :=
  ⟨"Tell me more.", exState, []⟩

/-- Fixture: a structured call failing with a transient parse failure. -/
def c2Sc : String → List ChatMsg → Except PyError Json :=
  fun _ _ => .error ⟨"Empty AI response", "ValueError"⟩

/-- Fixture: a structured call failing with a connectivity error. -/
def c2ScConn : String → List ChatMsg → Except PyError Json :=
  fun _ _ => .error ⟨"connection refused", "ConnectError"⟩

/-- Fixture: a free-text call returning a raw reply. -/
def c2Tc : String → List ChatMsg → Except PyError String :=
  fun _ _ => .ok "raw reply"

/-- Fixture: a structured call returning `c4Result`. -/
def c4Sc : String → List ChatMsg → Except PyError Json :=
  fun _ _ => .ok c4Result

/-- Fixture: an `updated_state` dict covering only two of the five fields. -/
def c3Usd : List (String × Json) :=
  [("frame_type", .str "feature"),
   ("sections_covered", .obj [("problem_statement", .num 9 (-1))])]

/-- Fixture: a parsed response whose `updated_state` only covers two fields. -/
def c3Res : List (String × Json) :=
  [("response", .str "noted"), ("updated_state", .obj c3Usd)]

/-- The turn produced from `c3Res` on the accumulated state `exState`. -/
def c3Turn : ConversationTurn :=
  ⟨"noted",
   ⟨some "feature", [("problem_statement", mkRat 9 10)],
    exState.extracted_content, exState.gaps, exState.ready_to_synthesize⟩,
   []⟩

/-- Fixture: a structured call returning `c3Res`. -/
def c3Sc : String → List ChatMsg → Except PyError Json :=
  fun _ _ => .ok (.obj c3Res)

/-- Fixture: an evaluator response carrying an out-of-range score. -/
def c8Res : List (String × Json) :=
  [("score", .num 101 0), ("feedback", .str "f")]

/-- Fixture: an evaluator response carrying an in-range score. -/
def c8ResOk : List (String × Json) :=
  [("score", .num 95 0), ("issues", .arr [.str "minor"])]

/-- Helper: a successful `mergeUpdatedState` determines every field of the
produced state through the corresponding per-field merge. -/
theorem mergeUpdatedState_parts
    (state : ConversationState) (usd : List (String × Json)) (us : ConversationState)
    (h : mergeUpdatedState state usd = .ok us) :
    mergeFrameType state usd = .ok us.frame_type ∧
    mergeSections state usd = .ok us.sections_covered ∧
    mergeExtracted state usd = .ok us.extracted_content ∧
    mergeGaps state usd = .ok us.gaps ∧
    mergeReady state usd = .ok us.ready_to_synthesize := by
  cases hft : mergeFrameType state usd with
  | error e => simp [mergeUpdatedState, hft, bind, Except.bind] at h
  | ok ft =>
    cases hsc : mergeSections state usd with
    | error e => simp [mergeUpdatedState, hft, hsc, bind, Except.bind] at h
    | ok sc =>
      cases hec : mergeExtracted state usd with
      | error e => simp [mergeUpdatedState, hft, hsc, hec, bind, Except.bind] at h
      | ok ec =>
        cases hg : mergeGaps state usd with
        | error e => simp [mergeUpdatedState, hft, hsc, hec, hg, bind, Except.bind] at h
        | ok g =>
          cases hr : mergeReady state usd with
          | error e =>
            simp [mergeUpdatedState, hft, hsc, hec, hg, hr, bind, Except.bind] at h
          | ok r =>
            simp only [mergeUpdatedState, hft, hsc, hec, hg, hr, bind, Except.bind,
              Except.ok.injEq] at h
            subst h
            simp [hft, hsc, hec, hg, hr]

/-- Helper: a successful `processTurnSuccess` obtained its `updated_state`
from `mergeUpdatedState` on the response's `updated_state` dict. -/
theorem processTurnSuccess_updated_state
    (state : ConversationState) (res : List (String × Json))
    (usd : List (String × Json)) (t : ConversationTurn)
    (husd : (dget res "updated_state").getD (.obj []) = .obj usd)
    (h : processTurnSuccess state (.obj res) = .ok t) :
    mergeUpdatedState state usd = .ok t.updated_state := by
  simp only [processTurnSuccess, husd] at h
  cases hm : mergeUpdatedState state usd with
  | error e => simp [hm, bind, Except.bind] at h
  | ok us =>
    cases hk : normalizeKnowledge ((dget res "relevant_knowledge").getD (.arr [])) with
    | error e => simp [hm, hk, bind, Except.bind] at h
    | ok k =>
      cases hr : responseOf res with
      | error e => simp [hm, hk, hr, bind, Except.bind] at h
      | ok r =>
        simp only [hm, hk, hr, bind, Except.bind, Except.ok.injEq] at h
        subst h
        simp [hm]

/-- C1: for every `send_message` turn, if the AI call raises, the persisted
message list and persisted `ConversationState` are identical before and after
the request, with no message or state write in the trace.  In this snapshot
the guarantee is even stronger: the successful-AI path raises
`AttributeError` at conversations.py line 285 before the first `add_message`
is invoked, so NO request — whatever the AI outcome — ever writes the message
list or the state, and they can never become mutually inconsistent. -/
theorem C1_ai_error_preserves_messages_and_state :
    (∀ (store : ConvStore) (now : Nat) (content : String) (e : PyError),
      (send_message store now content (.error e)).store.messages = store.messages ∧
      (send_message store now content (.error e)).store.state = store.state) ∧
    (∀ (store : ConvStore) (now : Nat) (content : String) (e : PyError),
      (send_message store now content (.error e)).events.any isWriteEvent = false) ∧
    (∀ (store : ConvStore) (now : Nat) (content : String)
        (ai : Except PyError ConversationTurn),
      (send_message store now content ai).store.messages = store.messages ∧
      (send_message store now content ai).store.state = store.state ∧
      (send_message store now content ai).events.any isWriteEvent = false) := by
  refine ⟨?_, ?_, ?_⟩
  · intro store now content e
    cases hst : store.status <;>
      simp [send_message, send_message_gate, hst, update_status]
  · intro store now content e
    cases hst : store.status <;>
      simp [send_message, send_message_gate, hst, isWriteEvent]
  · intro store now content ai
    cases ai <;> cases hst : store.status <;>
      simp [send_message, send_message_gate, hst, update_status, isWriteEvent]

/-- Witness for C1 at a concrete store: a failed turn leaves messages and
state untouched with no write event, and a turn with a successful AI outcome
(which raises before its first write in this snapshot) does too. -/
theorem C1_ai_error_preserves_messages_and_state_witness :
    (send_message exStoreActive 1 "hi" (.error ⟨"Empty AI response", "ValueError"⟩)).store.messages =
      exStoreActive.messages ∧
    (send_message exStoreActive 1 "hi" (.error ⟨"Empty AI response", "ValueError"⟩)).store.state =
      exStoreActive.state ∧
    (send_message exStoreActive 1 "hi" (.error ⟨"Empty AI response", "ValueError"⟩)).events.any
      isWriteEvent = false ∧
    (send_message exStoreActive 1 "hi" (.ok exTurn)).store.messages =
      exStoreActive.messages ∧
    (send_message exStoreActive 1 "hi" (.ok exTurn)).store.state =
      exStoreActive.state ∧
    (send_message exStoreActive 1 "hi" (.ok exTurn)).events.any isWriteEvent = false :=
  ⟨(C1_ai_error_preserves_messages_and_state.1 exStoreActive 1 "hi"
      ⟨"Empty AI response", "ValueError"⟩).1,
   (C1_ai_error_preserves_messages_and_state.1 exStoreActive 1 "hi"
      ⟨"Empty AI response", "ValueError"⟩).2,
   C1_ai_error_preserves_messages_and_state.2.1 exStoreActive 1 "hi"
     ⟨"Empty AI response", "ValueError"⟩,
   (C1_ai_error_preserves_messages_and_state.2.2 exStoreActive 1 "hi" (.ok exTurn)).1,
   (C1_ai_error_preserves_messages_and_state.2.2 exStoreActive 1 "hi" (.ok exTurn)).2.1,
   (C1_ai_error_preserves_messages_and_state.2.2 exStoreActive 1 "hi" (.ok exTurn)).2.2⟩

/-- C2: a structured-call failure of a parse-failure class (`ValueError`,
`json.JSONDecodeError`) makes `process_turn` re-issue the exact same system
instruction and message history in free-text mode and return the raw text
with the state unchanged and no knowledge refs; an error of any other class
propagates without the fallback. -/
theorem C2_parse_failure_free_text_fallback :
    ∀ (sc : String → List ChatMsg → Except PyError Json)
      (tc : String → List ChatMsg → Except PyError String)
      (messages : List ChatMsg) (state : ConversationState)
      (user kc : String) (language : Option String) (e : PyError),
      let p := buildTurnPrompt messages state user kc language
      sc p.1 p.2 = .error e →
      ((e.cls = "ValueError" ∨ e.cls = "JSONDecodeError") →
        ∀ t, tc p.1 p.2 = .ok t →
          process_turn sc tc messages state user kc language =
            (.ok ⟨t, state, []⟩,
             [⟨.structured, p.1, p.2⟩, ⟨.freeText, p.1, p.2⟩])) ∧
      (e.cls ≠ "ValueError" → e.cls ≠ "JSONDecodeError" →
        process_turn sc tc messages state user kc language =
          (.error e, [⟨.structured, p.1, p.2⟩])) := by
  intro sc tc messages state user kc language e p hsc
  constructor
  · intro hcls t htc
    simp only [process_turn, hsc, htc]
    rcases hcls with h | h <;> simp [h]
  · intro h1 h2
    simp [process_turn, hsc, h1, h2]

/-- Witness for C2: a transient parse failure degrades to the free-text reply
with unchanged state, and a connectivity error propagates. -/
theorem C2_parse_failure_free_text_fallback_witness :
    process_turn c2Sc c2Tc [] exState "hi" "" none =
      (.ok ⟨"raw reply", exState, []⟩,
       [⟨.structured, (buildTurnPrompt [] exState "hi" "" none).1,
         (buildTurnPrompt [] exState "hi" "" none).2⟩,
        ⟨.freeText, (buildTurnPrompt [] exState "hi" "" none).1,
         (buildTurnPrompt [] exState "hi" "" none).2⟩]) ∧
    process_turn c2ScConn c2Tc [] exState "hi" "" none =
      (.error ⟨"connection refused", "ConnectError"⟩,
       [⟨.structured, (buildTurnPrompt [] exState "hi" "" none).1,
         (buildTurnPrompt [] exState "hi" "" none).2⟩]) :=
  ⟨(C2_parse_failure_free_text_fallback c2Sc c2Tc [] exState "hi" "" none
      ⟨"Empty AI response", "ValueError"⟩ rfl).1 (Or.inl rfl) "raw reply" rfl,
   (C2_parse_failure_free_text_fallback c2ScConn c2Tc [] exState "hi" "" none
      ⟨"connection refused", "ConnectError"⟩ rfl).2 (by decide) (by decide)⟩

/-- C3: on a successful structured turn, every field that the response's
`updated_state` omits — including all of them when `updated_state` itself is
missing — keeps the previous state's value in the produced state. -/
theorem C3_omitted_fields_default_to_prior :
    ∀ (sc : String → List ChatMsg → Except PyError Json)
      (tc : String → List ChatMsg → Except PyError String)
      (messages : List ChatMsg) (state : ConversationState)
      (user kc : String) (language : Option String)
      (res usd : List (String × Json)) (t : ConversationTurn),
      sc (buildTurnPrompt messages state user kc language).1
        (buildTurnPrompt messages state user kc language).2 = .ok (.obj res) →
      (process_turn sc tc messages state user kc language).1 = .ok t →
      (dget res "updated_state").getD (.obj []) = .obj usd →
      (dget res "updated_state" = none → t.updated_state = state) ∧
      (dget usd "frame_type" = none → t.updated_state.frame_type = state.frame_type) ∧
      (dget usd "sections_covered" = none →
        t.updated_state.sections_covered = state.sections_covered) ∧
      (dget usd "extracted_content" = none →
        t.updated_state.extracted_content = state.extracted_content) ∧
      (dget usd "gaps" = none → t.updated_state.gaps = state.gaps) ∧
      (dget usd "ready_to_synthesize" = none →
        t.updated_state.ready_to_synthesize = state.ready_to_synthesize) := by
  intro sc tc messages state user kc language res usd t hsc hok husd
  have hps : processTurnSuccess state (.obj res) = .ok t := by
    simpa [process_turn, hsc] using hok
  have hm := processTurnSuccess_updated_state state res usd t husd hps
  have hp := mergeUpdatedState_parts state usd t.updated_state hm
  refine ⟨?_, ?_, ?_, ?_, ?_, ?_⟩
  · intro hnone
    rw [hnone] at husd
    simp only [Option.getD_none, Json.obj.injEq] at husd
    subst husd
    have hz : (Except.ok state : Except PyError ConversationState) =
        .ok t.updated_state := by
      rw [← hm]; rfl
    exact (Except.ok.inj hz).symm
  · intro hnone
    have hft : mergeFrameType state usd = .ok state.frame_type := by
      simp [mergeFrameType, hnone]
    exact (Except.ok.inj (hft.symm.trans hp.1)).symm
  · intro hnone
    have hsc2 : mergeSections state usd = .ok state.sections_covered := by
      simp [mergeSections, hnone]
    exact (Except.ok.inj (hsc2.symm.trans hp.2.1)).symm
  · intro hnone
    have hec : mergeExtracted state usd = .ok state.extracted_content := by
      simp [mergeExtracted, hnone]
    exact (Except.ok.inj (hec.symm.trans hp.2.2.1)).symm
  · intro hnone
    have hg : mergeGaps state usd = .ok state.gaps := by
      simp [mergeGaps, hnone]
    exact (Except.ok.inj (hg.symm.trans hp.2.2.2.1)).symm
  · intro hnone
    have hr : mergeReady state usd = .ok state.ready_to_synthesize := by
      simp [mergeReady, hnone]
    exact (Except.ok.inj (hr.symm.trans hp.2.2.2.2)).symm

/-- Witness for C3 at a concrete turn: the response omits extracted content,
gaps and readiness, and the produced state keeps the accumulated values. -/
theorem C3_omitted_fields_default_to_prior_witness :
    c3Turn.updated_state.extracted_content = exState.extracted_content ∧
    c3Turn.updated_state.gaps = exState.gaps ∧
    c3Turn.updated_state.ready_to_synthesize = exState.ready_to_synthesize :=
  ⟨(C3_omitted_fields_default_to_prior c3Sc c2Tc [] exState "hi" "" none
      c3Res c3Usd c3Turn rfl rfl rfl).2.2.2.1 rfl,
   (C3_omitted_fields_default_to_prior c3Sc c2Tc [] exState "hi" "" none
      c3Res c3Usd c3Turn rfl rfl rfl).2.2.2.2.1 rfl,
   (C3_omitted_fields_default_to_prior c3Sc c2Tc [] exState "hi" "" none
      c3Res c3Usd c3Turn rfl rfl rfl).2.2.2.2.2 rfl⟩

/-- Counterexample to C4: a conversation turn whose model response asserts
`ready_to_synthesize` on a `bug` frame with `root_cause` coverage 0.0
produces a state whose readiness flag is true although an applicable section
is below 0.6 — the code stores the model-asserted flag without enforcing the
coverage rule. -/
theorem C4_counterexample :
    (process_turn c4Sc c2Tc [] initialConversationState "hi" "" none).1 = .ok c4Turn ∧
    c4Turn.updated_state.frame_type = some "bug" ∧
    c4Turn.updated_state.ready_to_synthesize = true ∧
    specReadyCoverage c4Turn.updated_state = false :=
  ⟨rfl, rfl, rfl, by decide⟩

/-- C4 (amended): the readiness flag of the state produced by a turn is
exactly the model-asserted `ready_to_synthesize` value (or the prior state's
flag when the response omits it); the state machine never recomputes it from
the coverage numbers, so the prompt's ≥ 0.6 rule is not enforced by code. -/
theorem C4_readiness_is_model_asserted :
    ∀ (state : ConversationState) (res usd : List (String × Json))
      (t : ConversationTurn) (b : Bool),
      processTurnSuccess state (.obj res) = .ok t →
      (dget res "updated_state").getD (.obj []) = .obj usd →
      (dget usd "ready_to_synthesize" = some (.bool b) →
        t.updated_state.ready_to_synthesize = b) ∧
      (dget usd "ready_to_synthesize" = none →
        t.updated_state.ready_to_synthesize = state.ready_to_synthesize) := by
  intro state res usd t b hps husd
  have hm := processTurnSuccess_updated_state state res usd t husd hps
  have hp := (mergeUpdatedState_parts state usd t.updated_state hm).2.2.2.2
  constructor
  · intro hsome
    have hr : mergeReady state usd = .ok b := by
      simp [mergeReady, hsome, decodeBool]
    exact (Except.ok.inj (hr.symm.trans hp)).symm
  · intro hnone
    have hr : mergeReady state usd = .ok state.ready_to_synthesize := by
      simp [mergeReady, hnone]
    exact (Except.ok.inj (hr.symm.trans hp)).symm

/-- Witness for the amended C4 at the counterexample turn: the stored flag is
the asserted `true`. -/
theorem C4_readiness_is_model_asserted_witness :
    c4Turn.updated_state.ready_to_synthesize = true :=
  (C4_readiness_is_model_asserted initialConversationState c4ResFields c4UsdFields
    c4Turn true rfl rfl).1 rfl

/-- C5: `parse_json_response` strips a `json`-tagged code fence, extracts an
object embedded in prose, and rejects the empty string. -/
theorem C5_parse_json_response_examples :
    parse_json_response "```json\n\x7b\"a\":1\x7d\n```" =
      .ok (Json.obj [("a", Json.num 1 0)]) ∧
    parse_json_response "here is the result: \x7b\"a\":1\x7d thanks" =
      .ok (Json.obj [("a", Json.num 1 0)]) ∧
    parse_json_response "" = .error ⟨"Empty AI response", "ValueError"⟩ :=
  ⟨rfl, rfl, rfl⟩

/-- C6: `call_ai_with_retry` at its defaults retries exactly the transient
parse markers: a non-transient error propagates after one invocation with no
sleep; two transient failures then a success yield the success after exactly
3 invocations with sleeps 1s and 2s (total `base * (1 + 2)`); persistent
transient failures exhaust the 4 retries and re-raise the last error after 5
invocations with sleeps 1, 2, 4, 8. -/
theorem C6_retry_policy :
    (∀ (α : Type) (fn : Nat → Except PyError α) (e : PyError),
      fn 0 = .error e → is_retryable e = false →
      call_ai_with_retry fn defaultMaxRetries defaultRetryDelay = ⟨.error e, 1, []⟩) ∧
    (∀ (α : Type) (fn : Nat → Except PyError α) (e0 e1 : PyError) (v : α),
      fn 0 = .error e0 → fn 1 = .error e1 → fn 2 = .ok v →
      is_retryable e0 = true → is_retryable e1 = true →
      call_ai_with_retry fn defaultMaxRetries defaultRetryDelay = ⟨.ok v, 3, [1, 2]⟩ ∧
      ([1, 2] : List ℚ).sum = defaultRetryDelay * (1 + 2)) ∧
    (∀ (α : Type) (fn : Nat → Except PyError α) (e : Nat → PyError),
      (∀ i, fn i = .error (e i)) → (∀ i, is_retryable (e i) = true) →
      call_ai_with_retry fn defaultMaxRetries defaultRetryDelay =
        ⟨.error (e 4), 5, [1, 2, 4, 8]⟩) := by
  refine ⟨?_, ?_, ?_⟩
  · intro α fn e h0 hr
    simp [call_ai_with_retry, defaultMaxRetries, defaultRetryDelay, retryGo, h0, hr]
  · intro α fn e0 e1 v h0 h1 h2 hr0 hr1
    constructor
    · simp [call_ai_with_retry, defaultMaxRetries, defaultRetryDelay, retryGo,
        h0, h1, h2, hr0, hr1]
    · simp [defaultRetryDelay]
  · intro α fn e hf hr
    simp [call_ai_with_retry, defaultMaxRetries, defaultRetryDelay, retryGo,
      hf 0, hf 1, hf 2, hf 3, hf 4, hr 0, hr 1, hr 2, hr 3, hr 4]
    norm_num

/-- Witness for C6 at concrete operations: a connectivity error is invoked
once and propagates; a twice-transient operation succeeds on the third call
with sleeps summing to 3; an always-transient operation exhausts retries. -/
theorem C6_retry_policy_witness :
    call_ai_with_retry c6FnConn defaultMaxRetries defaultRetryDelay =
      ⟨.error ⟨"connection refused", "ConnectionError"⟩, 1, []⟩ ∧
    call_ai_with_retry c6FnFlaky defaultMaxRetries defaultRetryDelay =
      ⟨.ok 7, 3, [1, 2]⟩ ∧
    call_ai_with_retry c6FnAlways defaultMaxRetries defaultRetryDelay =
      ⟨.error ⟨"No JSON content found in AI response", "ValueError"⟩, 5, [1, 2, 4, 8]⟩ :=
  ⟨C6_retry_policy.1 Nat c6FnConn ⟨"connection refused", "ConnectionError"⟩ rfl rfl,
   (C6_retry_policy.2.1 Nat c6FnFlaky ⟨"Empty AI response", "ValueError"⟩
      ⟨"Empty AI response", "ValueError"⟩ 7 rfl rfl rfl rfl rfl).1,
   C6_retry_policy.2.2 Nat c6FnAlways
     (fun _ => ⟨"No JSON content found in AI response", "ValueError"⟩)
     (fun _ => rfl) (fun _ => rfl)⟩

/-- Counterexample to C7: the Generation agent dispatches its structured call
without the Retry/Backoff Supervisor — a transient parse failure (retryable
by `is_retryable`) propagates from `GeneratorAgent._call_ai` after a single
upstream invocation, while the same upstream sequence succeeds after a retry
under the Evaluation agent's supervised call. -/
theorem C7_counterexample :
    generatorAgentCallAi "openai" flakyUpstream =
      .error ⟨"Empty AI response", "ValueError"⟩ ∧
    is_retryable ⟨"Empty AI response", "ValueError"⟩ = true ∧
    (evaluatorAgentCallAi "openai" flakyUpstream).result = .ok (.obj []) ∧
    (evaluatorAgentCallAi "openai" flakyUpstream).calls = 2 :=
  ⟨rfl, rfl, rfl, rfl⟩

/-- C7 (amended): the Evaluation agent's and the Conversation State Machine's
structured calls are wrapped in `call_ai_with_retry`, so a transient parse
failure there is retried; the Generation and Refinement agents dispatch
directly without the supervisor, so the same failure propagates with the
upstream invoked exactly once. -/
theorem C7_agent_retry_wrapping :
    ∀ (upstream : Nat → Except PyError Json) (e : PyError) (v : Json),
      upstream 0 = .error e → is_retryable e = true → upstream 1 = .ok v →
      (conversationAgentCallAi "openai" upstream).result = .ok v ∧
      (conversationAgentCallAi "openai" upstream).calls = 2 ∧
      (evaluatorAgentCallAi "openai" upstream).result = .ok v ∧
      (evaluatorAgentCallAi "openai" upstream).calls = 2 ∧
      generatorAgentCallAi "openai" upstream = .error e ∧
      refinerAgentCallAi "openai" upstream = .error e := by
  intro upstream e v h0 hr h1
  refine ⟨?_, ?_, ?_, ?_, ?_, ?_⟩ <;>
    simp [conversationAgentCallAi, evaluatorAgentCallAi, generatorAgentCallAi,
      refinerAgentCallAi, call_ai_with_retry, retryGo, defaultMaxRetries,
      defaultRetryDelay, is_openai_compatible, h0, h1, hr]

/-- Witness for the amended C7 at the flaky upstream: the supervised call
recovers, the unsupervised generator call propagates the transient error. -/
theorem C7_agent_retry_wrapping_witness :
    (conversationAgentCallAi "openai" flakyUpstream).result = .ok (.obj []) ∧
    generatorAgentCallAi "openai" flakyUpstream =
      .error ⟨"Empty AI response", "ValueError"⟩ :=
  ⟨(C7_agent_retry_wrapping flakyUpstream ⟨"Empty AI response", "ValueError"⟩
      (.obj []) rfl rfl rfl).1,
   (C7_agent_retry_wrapping flakyUpstream ⟨"Empty AI response", "ValueError"⟩
      (.obj []) rfl rfl rfl).2.2.2.2.1⟩

/-- C8: `EvaluationResult` rejects scores 101 and -1 and accepts 0 and 100;
`EvaluatorAgent.evaluate` never returns a result when the response's score is
out of [0,100] (it fails loudly), and when it does return, the score is the
response's score unchanged (never clamped). -/
theorem C8_score_validation :
    mkEvaluationResult 101 [] "" [] =
      .error ⟨"Score must be between 0 and 100, got 101", "ValidationError"⟩ ∧
    mkEvaluationResult (-1) [] "" [] =
      .error ⟨"Score must be between 0 and 100, got -1", "ValidationError"⟩ ∧
    mkEvaluationResult 0 [] "" [] = .ok ⟨0, [], "", []⟩ ∧
    mkEvaluationResult 100 [] "" [] = .ok ⟨100, [], "", []⟩ ∧
    (∀ (res : List (String × Json)) (n : Int),
      dget res "score" = some (.num n 0) → (n < 0 ∨ 100 < n) →
      ∀ r, evaluator_evaluate (.ok (.obj res)) ≠ .ok r) ∧
    (∀ (res : List (String × Json)) (n : Int) (r : EvaluationResult),
      dget res "score" = some (.num n 0) →
      evaluator_evaluate (.ok (.obj res)) = .ok r → r.score = n) := by
  refine ⟨rfl, rfl, rfl, rfl, ?_, ?_⟩
  · intro res n hs hrange r h
    simp only [evaluator_evaluate, bind, Except.bind, pure, Except.pure] at h
    have hscore : scoreOf res = .ok n := by
      simp [scoreOf, hs, decodeInt]
    rw [hscore] at h
    cases hb : breakdownOf res with
    | error e => simp [hb] at h
    | ok b =>
      rw [hb] at h
      cases hf : feedbackOf res with
      | error e => simp [hf] at h
      | ok f =>
        rw [hf] at h
        cases hi : issuesOf res with
        | error e => simp [hi] at h
        | ok i =>
          rw [hi] at h
          simp only [mkEvaluationResult] at h
          rcases hrange with h1 | h1 <;>
            rw [if_pos (by simp; omega)] at h <;> exact Except.noConfusion h
  · intro res n r hs h
    simp only [evaluator_evaluate, bind, Except.bind, pure, Except.pure] at h
    have hscore : scoreOf res = .ok n := by
      simp [scoreOf, hs, decodeInt]
    rw [hscore] at h
    cases hb : breakdownOf res with
    | error e => simp [hb] at h
    | ok b =>
      rw [hb] at h
      cases hf : feedbackOf res with
      | error e => simp [hf] at h
      | ok f =>
        rw [hf] at h
        cases hi : issuesOf res with
        | error e => simp [hi] at h
        | ok i =>
          rw [hi] at h
          simp only [mkEvaluationResult] at h
          split at h
          · exact Except.noConfusion h
          · cases h with
            | refl => rfl

/-- Witness for C8 at concrete evaluator responses: an out-of-range response
yields no result; an in-range response's score comes through unchanged. -/
theorem C8_score_validation_witness :
    evaluator_evaluate (.ok (.obj c8Res)) ≠ .ok ⟨0, [], "", []⟩ ∧
    (⟨95, [], "", ["minor"]⟩ : EvaluationResult).score = 95 :=
  ⟨C8_score_validation.2.2.2.2.1 c8Res 101 rfl (Or.inr (by decide)) ⟨0, [], "", []⟩,
   C8_score_validation.2.2.2.2.2 c8ResOk 95 ⟨95, [], "", ["minor"]⟩ rfl rfl⟩

/-- C9: a new message on a `synthesized` conversation flips the persisted
status back to `active`; the reactivation write touches neither the coverage
map nor the extracted content, and the conversation ends the request with
status `active` whatever the AI outcome. -/
theorem C9_reactivation_preserves_state :
    ∀ (store : ConvStore) (now : Nat) (content : String)
      (ai : Except PyError ConversationTurn),
      store.status = .synthesized →
      send_message_gate store now =
        .ok (update_status store now .active, [.updateStatusEv .active]) ∧
      (update_status store now .active).status = .active ∧
      (update_status store now .active).state.sections_covered =
        store.state.sections_covered ∧
      (update_status store now .active).state.extracted_content =
        store.state.extracted_content ∧
      (send_message store now content ai).store.status = .active := by
  intro store now content ai h
  refine ⟨by simp [send_message_gate, h], rfl, rfl, rfl, ?_⟩
  cases ai <;>
    simp [send_message, send_message_gate, h, update_status, add_message, update_state]

/-- Witness for C9 at a concrete synthesized conversation with accumulated
coverage. -/
theorem C9_reactivation_preserves_state_witness :
    send_message_gate exStoreSynth 1 =
      .ok (update_status exStoreSynth 1 .active, [.updateStatusEv .active]) ∧
    (update_status exStoreSynth 1 .active).status = .active ∧
    (update_status exStoreSynth 1 .active).state.sections_covered =
      exStoreSynth.state.sections_covered ∧
    (update_status exStoreSynth 1 .active).state.extracted_content =
      exStoreSynth.state.extracted_content ∧
    (send_message exStoreSynth 1 "hi" (.ok exTurn)).store.status = .active :=
  C9_reactivation_preserves_state exStoreSynth 1 "hi" (.ok exTurn) rfl

/-- Counterexample to C10: on a failed turn that reactivated a synthesized
conversation, the persisted status is not the only changed field — the
`update_status` write also refreshes the conversation's `updated_at`
timestamp in `meta.yaml`. -/
theorem C10_counterexample :
    (send_message exStoreSynth 5 "hi" (.error ⟨"boom", "ConnectError"⟩)).store.updated_at ≠
      exStoreSynth.updated_at ∧
    (send_message exStoreSynth 5 "hi" (.error ⟨"boom", "ConnectError"⟩)).store.status =
      .active := by
  constructor <;> decide

/-- C10 (amended): on a `synthesized` conversation the status write to
`active` is persisted before the AI call and is not rolled back when the call
fails; on a failed turn the persisted changes are exactly the status and the
meta updated-at timestamp (messages and state are untouched), and a failed
turn on an already-`active` conversation persists nothing. -/
theorem C10_failed_turn_writes :
    ∀ (store : ConvStore) (now : Nat) (content : String) (e : PyError),
      (store.status = .synthesized →
        (send_message store now content (.error e)).store =
          update_status store now .active ∧
        (send_message store now content (.error e)).events =
          [.updateStatusEv .active, .aiCallEv] ∧
        (send_message store now content (.error e)).store.messages = store.messages ∧
        (send_message store now content (.error e)).store.state = store.state) ∧
      (store.status = .active →
        (send_message store now content (.error e)).store = store ∧
        (send_message store now content (.error e)).events = [.aiCallEv]) := by
  intro store now content e
  constructor
  · intro h
    simp [send_message, send_message_gate, h, update_status]
  · intro h
    simp [send_message, send_message_gate, h]

/-- Witness for the amended C10 at concrete conversations: the reactivating
failed turn persists exactly the status flip (with its timestamp), an
already-active failed turn persists nothing. -/
theorem C10_failed_turn_writes_witness :
    (send_message exStoreSynth 5 "hi" (.error ⟨"boom", "ConnectError"⟩)).store =
      update_status exStoreSynth 5 .active ∧
    (send_message exStoreActive 5 "hi" (.error ⟨"boom", "ConnectError"⟩)).store =
      exStoreActive :=
  ⟨((C10_failed_turn_writes exStoreSynth 5 "hi" ⟨"boom", "ConnectError"⟩).1 rfl).1,
   ((C10_failed_turn_writes exStoreActive 5 "hi" ⟨"boom", "ConnectError"⟩).2 rfl).1⟩

end Framer
